import Mathlib

/-!
Shallow embedding of the project-brief-agent backend (server.js) and proofs
about its credit ledger, checkout flow and analysis flow.

State model.  The server keeps two in-memory JS objects, a docs map and a
users map.  Lean association lists over strings stand in for both objects,
and plain functions over an explicit state record stand in for the route
handlers.  The JS numbers that hold credit balances only ever receive
integer arithmetic in the program, so balances are modelled as Int (the
race in the analyze route can drive them below zero, hence not Nat).

Concurrency model, following the cooperative single-threaded runtime: a
request handler runs as uninterrupted steps between await points.  The
analyze handler touches the ledger in exactly two such segments: everything
up to the outbound remote fetch (phaseA) and everything after the remote
response has been read (phaseB).  A concurrent execution of several analyze
requests is an interleaving of their phaseA / phaseB steps.
-/

/-- JS truthiness fallback for optional strings: models a JS expression
a or-else b where a missing value and the empty string are falsy. -/
def jsOrStr (a : Option String) (b : String) : String :=
  match a with
  | none => b
  | some s => if s = "" then b else s

/-- Association-list lookup, modelling property read on a JS object used
as a map. -/
def alFind {α : Type} (l : List (String × α)) (k : String) : Option α :=
  match l with
  | [] => none
  | (k0, v) :: t => if k0 = k then some v else alFind t k

/-- Association-list update, modelling property assignment on a JS object
used as a map (overwrites an existing key, appends a fresh one). -/
def alSet {α : Type} (l : List (String × α)) (k : String) (v : α) : List (String × α) :=
  match l with
  | [] => [(k, v)]
  | (k0, v0) :: t => if k0 = k then (k, v) :: t else (k0, v0) :: alSet t k v

/-- Model of the JS String trim builtin: drop leading and trailing
whitespace.  Written over the character list of the string. -/
def jsTrim (s : String) : String :=
  ⟨((s.data.dropWhile Char.isWhitespace).reverse.dropWhile Char.isWhitespace).reverse⟩

/-- A document record.  Of the stored fields (s3Key, text, uploadedAt,
userId, originalName) only the extracted text and the owning user id are
load-bearing for the properties in question. -/
structure Doc where
  text : String
  userId : String
deriving DecidableEq

/-- The process-wide mutable state: the docs map and the users map
(each user record holds only its credits field). -/
structure St where
  docs : List (String × Doc)
  users : List (String × Int)
deriving DecidableEq

/-- Observable balance of an account.  Models the read used by the
GET user-credits route: a missing user yields 0, a present user yields
its credits field (the or-0 guard in the route maps 0 to 0 and is the
identity on every other integer). -/
def getBalance (st : St) (u : String) : Int :=
  match alFind st.users u with
  | none => 0
  | some c => c

/-- Lazy account creation: models the statement
users[uid] = users[uid] or-else a fresh record with credits 0. -/
def ensureUser (st : St) (u : String) : St :=
  match alFind st.users u with
  | none => ⟨st.docs, alSet st.users u 0⟩
  | some _ => st

/-- Numeric value of a list of decimal digit characters, most significant
first. -/
def natOfDigits (l : List Char) : Nat :=
  l.foldl (fun acc c => 10 * acc + (c.toNat - 48)) 0

/-- Character-level piece of the model of the JS parseFloat builtin on the
decimal currency strings the capture route feeds it: optional leading
whitespace, an optional sign, an integer piece and an optional fractional
piece; none stands for NaN (no digits found).  Returns the sign, the
integer-piece value, the fraction-piece value and the fraction digit
count.  Exponent forms and the word Infinity do not occur in currency
amounts and are outside the modelled domain. -/
def parseDecimal (s : String) : Option (Bool × Nat × Nat × Nat) :=
  let cs0 := s.data.dropWhile Char.isWhitespace
  let neg := cs0.head? = some '-'
  let cs1 := if cs0.head? = some '-' ∨ cs0.head? = some '+' then cs0.tail else cs0
  let ip := cs1.takeWhile Char.isDigit
  let rest := cs1.dropWhile Char.isDigit
  let fp := if rest.head? = some '.' then rest.tail.takeWhile Char.isDigit else []
  if ip = [] ∧ fp = [] then none
  else some (neg, natOfDigits ip, natOfDigits fp, fp.length)

/-- Rational value of a parsed decimal string, completing the model of
parseFloat: sign times (integer piece plus fraction over a power of ten). -/
def jsParseFloat (s : String) : Option ℚ :=
  match parseDecimal s with
  | none => none
  | some (neg, i, f, k) =>
    some ((if neg then (-1 : ℚ) else 1) * ((i : ℚ) + (f : ℚ) / (10 : ℚ) ^ k))

/-- Credit conversion in the capture route:
Math.round of parseFloat(amount) / 15 * 50, or-else 50.
Math.round of NaN is NaN, and NaN, 0 and negative zero are falsy, so the
fallback 50 applies exactly when the parse failed or the rounded result
is the integer zero.  Mathlib round is floor of x + 1/2, which agrees with
JS Math.round (round half toward positive infinity) at every rational. -/
def computeCredits (amount : String) : Int :=
  match jsParseFloat amount with
  | none => 50
  | some q =>
    let r := round (q / 15 * 50)
    if r = 0 then 50 else r

/-- Modelled from the spec (for the refinement comparison in C6):
creditsToAdd = round of (amountPaid / referencePrice) * referenceCredits,
with referencePrice 15.00 and referenceCredits 50 as configured constants;
if the result is 0, NaN, or otherwise falsy, grant referenceCredits (the
default bundle).  The argument is the already-parsed payment amount, with
none standing for NaN. -/
def specCreditGrant (amountPaid : Option ℚ) : Int :=
  match amountPaid with
  | none => 50
  | some a =>
    let r := round (a / 15 * 50)
    if r = 0 then 50 else r

/-- The ledger-relevant tail of the GET capture route, entered after the
gateway capture call succeeded: resolve the account from the custom id,
resolve the amount string, convert it to credits, lazily create the user
record and add the grant.  Returns the new state and creditsToAdd.  The
route consults no record of previously captured orders. -/
def capturePaypalOrder (st : St) (customId amountValue : Option String) : St × Int :=
  let uid := jsOrStr customId "anonymous"
  let amount := jsOrStr amountValue "15.00"
  let creditsToAdd := computeCredits amount
  let st1 := ensureUser st uid
  (⟨st1.docs, alSet st1.users uid (getBalance st1 uid + creditsToAdd)⟩, creditsToAdd)

/-- Document id generation at ingestion time: the string doc- followed by
the decimal rendering of Date.now(), the current millisecond timestamp. -/
def genDocId (now : Nat) : String :=
  "doc-" ++ Nat.repr now

/-- Document ingestion (shared shape of the upload and upload-by-url
routes): generate the id from the current millisecond timestamp and store
the record, overwriting any record already present under that id. -/
def uploadDoc (st : St) (now : Nat) (text : String) (userId : Option String) : St × String :=
  let docId := genDocId now
  (⟨alSet st.docs docId ⟨text, jsOrStr userId "anonymous"⟩, st.users⟩, docId)

/-- Outcome of the analyze route.  docNotFound is the 400 missing-document
response, insufficientCredits the 402 response, noExtractableText the 400
empty-text response, remoteFailure the 500 response produced by the outer
catch when the remote call or the reading of its body throws, and ok
carries the remainingCredits field of the 200 response (the JSON parse of
the model output never changes control flow: a parse failure is returned
as a tagged success payload). -/
inductive AnalyzeResult
  | docNotFound
  | insufficientCredits
  | noExtractableText
  | remoteFailure
  | ok (remaining : Int)
deriving DecidableEq

/-- Effective account resolution in the analyze route:
userId or-else the document owner or-else anonymous. -/
def effectiveUid (doc : Doc) (userId : Option String) : String :=
  jsOrStr userId (jsOrStr (some doc.userId) "anonymous")

/-- First uninterrupted segment of the analyze handler, from entry up to
the outbound remote fetch: validate the document id, look the document up,
resolve the effective account, lazily create its record, gate on a
positive balance, gate on nonempty trimmed text.  Returns the state at the
suspension point and either an early response or the resolved account id
of a request now awaiting the remote call.  No debit happens here. -/
def phaseA (st : St) (docId userId : Option String) : St × (AnalyzeResult ⊕ String) :=
  match docId with
  | none => (st, Sum.inl AnalyzeResult.docNotFound)
  | some d =>
    if d = "" then (st, Sum.inl AnalyzeResult.docNotFound)
    else
      match alFind st.docs d with
      | none => (st, Sum.inl AnalyzeResult.docNotFound)
      | some doc =>
        let uid := effectiveUid doc userId
        let st1 := ensureUser st uid
        if getBalance st1 uid ≤ 0 then (st1, Sum.inl AnalyzeResult.insufficientCredits)
        else if jsTrim doc.text = "" then (st1, Sum.inl AnalyzeResult.noExtractableText)
        else (st1, Sum.inr uid)

/-- Second uninterrupted segment of the analyze handler, run after the
remote response has been received and read: decrement the credits field
by one and respond with the new balance as remainingCredits. -/
def phaseB (st : St) (uid : String) : St × AnalyzeResult :=
  let c := getBalance st uid - 1
  (⟨st.docs, alSet st.users uid c⟩, AnalyzeResult.ok c)

/-- A full sequential run of the analyze route.  The remote argument is
the outcome of the remote analysis call: none when the fetch throws or its
body cannot be read (both land in the outer catch, a 500), some raw text
otherwise.  Returns the response, the final state, and whether the remote
collaborator was invoked. -/
def analyze (st : St) (docId userId : Option String) (remote : Option String) :
    AnalyzeResult × St × Bool :=
  match phaseA st docId userId with
  | (st1, Sum.inl r) => (r, st1, false)
  | (st1, Sum.inr uid) =>
    match remote with
    | none => (AnalyzeResult.remoteFailure, st1, true)
    | some _ =>
      let p := phaseB st1 uid
      (p.2, p.1, true)

/-- Models the GET user-credits route: resolve the account (defaulting to
anonymous) and read its balance, 0 for an absent record. -/
def userCreditsRoute (st : St) (userId : Option String) : String × Int :=
  let uid := jsOrStr userId "anonymous"
  (uid, getBalance st uid)

/-- Decimal digit characters of a natural number, most significant first,
with a single zero character for zero: the specification against which the
fuel-driven core rendering used by Nat.repr is characterized below. -/
def reprDigits (n : Nat) : List Char :=
  if n = 0 then ['0'] else (Nat.digits 10 n).reverse.map Nat.digitChar

/-! Concrete states and schedules used by individual claims. -/

/-- Concrete state for C7: a document owned by u and a zero balance. -/
def wSt7 : St := ⟨[("d", ⟨"a brief", "u"⟩)], [("u", 0)]⟩

/-- Concrete state for C8: a document owned by v and no user record. -/
def wSt8 : St := ⟨[("d", ⟨"a brief", "v"⟩)], []⟩

/-- Concrete state for C10: a funded account and a usable document. -/
def wSt10 : St := ⟨[("d", ⟨"a brief", "u"⟩)], [("u", 3)]⟩

/-- Concrete state for C3: one credit and a document with real text. -/
def c3St : St := ⟨[("d", ⟨"client brief", "u"⟩)], [("u", 1)]⟩

/-- Concrete state for C4: one credit and a whitespace-only document. -/
def c4St : St := ⟨[("e", ⟨"   ", "u"⟩)], [("u", 1)]⟩

/-- Concrete state for C1 and C2: account u holds exactly one credit. -/
def raceSt : St := ⟨[("d", ⟨"client brief", "u"⟩)], [("u", 1)]⟩

/-- Race schedule, step 1: request one runs to its remote call. -/
def raceA1 : St × (AnalyzeResult ⊕ String) := phaseA raceSt (some "d") (some "u")

/-- Race schedule, step 2: request two runs to its remote call. -/
def raceA2 : St × (AnalyzeResult ⊕ String) := phaseA raceA1.1 (some "d") (some "u")

/-- Race schedule, step 3: request one resumes after its remote response. -/
def raceB1 : St × AnalyzeResult := phaseB raceA2.1 "u"

/-- Race schedule, step 4: request two resumes after its remote response. -/
def raceB2 : St × AnalyzeResult := phaseB raceB1.1 "u"

/-- First capture of the 15.00-dollar order for account u (claim C5). -/
def captureOnce : St × Int := capturePaypalOrder ⟨[], []⟩ (some "u") (some "15.00")

/-- Second capture of the same order reference (claim C5). -/
def captureTwice : St × Int := capturePaypalOrder captureOnce.1 (some "u") (some "15.00")

/-- First ingestion at millisecond 100 (claim C9). -/
def upload1 : St × String := uploadDoc ⟨[], []⟩ 100 "first brief" (some "u")

/-- Second ingestion, same millisecond 100 (claim C9). -/
def upload2 : St × String := uploadDoc upload1.1 100 "second brief" (some "v")

/-! Basic lemmas about the association-list state. -/

theorem alFind_alSet {α : Type} (l : List (String × α)) (k k2 : String) (v : α) :
    alFind (alSet l k v) k2 = if k = k2 then some v else alFind l k2 := by
  induction l with
  | nil => simp [alSet, alFind]
  | cons h t ih =>
    obtain ⟨k0, v0⟩ := h
    by_cases h0 : k0 = k
    · subst h0
      by_cases h2 : k0 = k2 <;> simp [alSet, alFind, h2]
    · by_cases h2 : k0 = k2
      · subst h2
        have hk : ¬ k = k0 := fun h => h0 h.symm
        simp [alSet, alFind, h0, hk]
      · simp [alSet, alFind, h0, h2, ih]

theorem getBalance_ensureUser (st : St) (u a : String) :
    getBalance (ensureUser st u) a = getBalance st a := by
  unfold ensureUser
  cases h : alFind st.users u with
  | none =>
    by_cases ha : u = a
    · subst ha; simp [getBalance, alFind_alSet, h]
    · simp [getBalance, alFind_alSet, ha]
  | some c => rfl

theorem getBalance_phaseA (st : St) (docId userId : Option String) (a : String) :
    getBalance (phaseA st docId userId).1 a = getBalance st a := by
  unfold phaseA
  cases docId with
  | none => rfl
  | some d =>
    by_cases hd : d = ""
    · simp [hd]
    · simp only [hd, if_false]
      cases hf : alFind st.docs d with
      | none => rfl
      | some doc =>
        simp only []
        split
        · simp [getBalance_ensureUser]
        · split <;> simp [getBalance_ensureUser]

theorem getBalance_phaseB_self (st : St) (u : String) :
    getBalance (phaseB st u).1 u = getBalance st u - 1 := by
  simp [phaseB, getBalance, alFind_alSet]

/-! Characterization of the three gated outcomes of the pre-remote segment
of the analyze handler. -/

theorem phaseA_insufficient (st : St) (d : String) (userId : Option String) (doc : Doc)
    (hne : d ≠ "") (hd : alFind st.docs d = some doc)
    (hb : getBalance st (effectiveUid doc userId) ≤ 0) :
    phaseA st (some d) userId =
      (ensureUser st (effectiveUid doc userId), Sum.inl AnalyzeResult.insufficientCredits) := by
  have hb2 : getBalance (ensureUser st (effectiveUid doc userId)) (effectiveUid doc userId) ≤ 0 := by
    rw [getBalance_ensureUser]; exact hb
  simp [phaseA, hne, hd, hb2]

theorem phaseA_noText (st : St) (d : String) (userId : Option String) (doc : Doc)
    (hne : d ≠ "") (hd : alFind st.docs d = some doc)
    (hb : 0 < getBalance st (effectiveUid doc userId))
    (ht : jsTrim doc.text = "") :
    phaseA st (some d) userId =
      (ensureUser st (effectiveUid doc userId), Sum.inl AnalyzeResult.noExtractableText) := by
  have hb2 : ¬ getBalance (ensureUser st (effectiveUid doc userId)) (effectiveUid doc userId) ≤ 0 := by
    rw [getBalance_ensureUser]; omega
  simp [phaseA, hne, hd, hb2, ht]

theorem phaseA_toRemote (st : St) (d : String) (userId : Option String) (doc : Doc)
    (hne : d ≠ "") (hd : alFind st.docs d = some doc)
    (hb : 0 < getBalance st (effectiveUid doc userId))
    (ht : jsTrim doc.text ≠ "") :
    phaseA st (some d) userId =
      (ensureUser st (effectiveUid doc userId), Sum.inr (effectiveUid doc userId)) := by
  have hb2 : ¬ getBalance (ensureUser st (effectiveUid doc userId)) (effectiveUid doc userId) ≤ 0 := by
    rw [getBalance_ensureUser]; omega
  simp [phaseA, hne, hd, hb2, ht]

/-! Helper evaluations for the capture route. -/

theorem computeCredits_fifteen : computeCredits "15.00" = 50 := by
  have h : parseDecimal "15.00" = some (false, 15, 0, 2) := by decide
  simp only [computeCredits, jsParseFloat, h]
  norm_num [round_eq]

theorem capture_u_1500 (st : St) :
    capturePaypalOrder st (some "u") (some "15.00")
      = (⟨(ensureUser st "u").docs,
          alSet (ensureUser st "u").users "u" (getBalance (ensureUser st "u") "u" + 50)⟩, 50) := by
  simp [capturePaypalOrder, jsOrStr, computeCredits_fifteen]

/-! Characterization of the decimal rendering used by document ids, and
its injectivity. -/

theorem toDigitsCore_eq_reprDigits (n : Nat) : ∀ (f : Nat) (acc : List Char), n < f →
    Nat.toDigitsCore 10 f n acc = reprDigits n ++ acc := by
  induction n using Nat.strong_induction_on with
  | _ n ih =>
    intro f acc hf
    cases f with
    | zero => omega
    | succ f =>
      simp only [Nat.toDigitsCore]
      by_cases h0 : n / 10 = 0
      · simp only [h0, if_true]
        by_cases hn : n = 0
        · subst hn
          have hc : Nat.digitChar (0 % 10) = '0' := by decide
          simp [reprDigits, hc]
        · have hlt : n < 10 := by
            rcases Nat.lt_or_ge n 10 with h | h
            · exact h
            · exact absurd h0 (by omega)
          have hmod : n % 10 = n := Nat.mod_eq_of_lt hlt
          have hdig : Nat.digits 10 n = [n] := Nat.digits_of_lt 10 n hn hlt
          simp [reprDigits, hn, hdig, hmod]
      · have hn : n ≠ 0 := by
          intro h
          rw [h] at h0
          simp at h0
        have hdiv_lt : n / 10 < n := Nat.div_lt_self (Nat.pos_of_ne_zero hn) (by norm_num)
        have hflt : n / 10 < f := by omega
        simp only [h0, if_false]
        rw [ih (n / 10) hdiv_lt f (Nat.digitChar (n % 10) :: acc) hflt]
        have hdig : Nat.digits 10 n = n % 10 :: Nat.digits 10 (n / 10) :=
          Nat.digits_def' (by norm_num) (Nat.pos_of_ne_zero hn)
        simp [reprDigits, hn, h0, hdig]

theorem toDigits_eq_reprDigits (n : Nat) : Nat.toDigits 10 n = reprDigits n := by
  have h := toDigitsCore_eq_reprDigits n (n + 1) [] (Nat.lt_succ_self n)
  simpa [Nat.toDigits] using h

theorem digitChar_injOn : ∀ a < 10, ∀ b < 10,
    Nat.digitChar a = Nat.digitChar b → a = b := by decide

theorem map_digitChar_injOn : ∀ (l1 l2 : List Nat), (∀ x ∈ l1, x < 10) → (∀ x ∈ l2, x < 10) →
    l1.map Nat.digitChar = l2.map Nat.digitChar → l1 = l2
  | [], [], _, _, _ => rfl
  | [], _ :: _, _, _, h => by simp at h
  | _ :: _, [], _, _, h => by simp at h
  | a :: t1, b :: t2, h1, h2, h => by
    simp only [List.map_cons, List.cons.injEq] at h
    have hab := digitChar_injOn a (h1 a (by simp)) b (h2 b (by simp)) h.1
    subst hab
    have ht := map_digitChar_injOn t1 t2 (fun x hx => h1 x (by simp [hx]))
      (fun x hx => h2 x (by simp [hx])) h.2
    rw [ht]

theorem digits_reverse_lt (n : Nat) : ∀ x ∈ (Nat.digits 10 n).reverse, x < 10 := by
  intro x hx
  rw [List.mem_reverse] at hx
  exact Nat.digits_lt_base (by norm_num) hx

theorem reprDigits_inj (m n : Nat) (h : reprDigits m = reprDigits n) : m = n := by
  by_cases hm : m = 0 <;> by_cases hn : n = 0
  · omega
  · exfalso
    subst hm
    simp only [reprDigits, if_true, hn, if_false] at h
    have h2 : ([0] : List Nat).map Nat.digitChar
        = ((Nat.digits 10 n).reverse).map Nat.digitChar := by
      simpa using h
    have h3 := map_digitChar_injOn [0] (Nat.digits 10 n).reverse
      (by simp) (digits_reverse_lt n) h2
    have h4 : Nat.digits 10 n = [0] := by
      have h5 := congrArg List.reverse h3
      simpa using h5.symm
    have h5 := Nat.ofDigits_digits 10 n
    rw [h4] at h5
    simp [Nat.ofDigits] at h5
    exact hn h5.symm
  · exfalso
    subst hn
    simp only [reprDigits, if_true, hm, if_false] at h
    have h2 : ((Nat.digits 10 m).reverse).map Nat.digitChar
        = ([0] : List Nat).map Nat.digitChar := by
      simpa using h
    have h3 := map_digitChar_injOn (Nat.digits 10 m).reverse [0]
      (digits_reverse_lt m) (by simp) h2
    have h4 : Nat.digits 10 m = [0] := by
      have h5 := congrArg List.reverse h3
      simpa using h5
    have h5 := Nat.ofDigits_digits 10 m
    rw [h4] at h5
    simp [Nat.ofDigits] at h5
    exact hm h5.symm
  · simp only [reprDigits, hm, hn, if_false] at h
    have h3 := map_digitChar_injOn (Nat.digits 10 m).reverse (Nat.digits 10 n).reverse
      (digits_reverse_lt m) (digits_reverse_lt n) h
    have h4 : Nat.digits 10 m = Nat.digits 10 n := by
      have h5 := congrArg List.reverse h3
      simpa using h5
    have h5 := Nat.ofDigits_digits 10 m
    rw [h4, Nat.ofDigits_digits] at h5
    exact h5.symm

theorem natRepr_injective (m n : Nat) (h : Nat.repr m = Nat.repr n) : m = n := by
  apply reprDigits_inj
  have h2 : (Nat.toDigits 10 m).asString = (Nat.toDigits 10 n).asString := h
  rw [toDigits_eq_reprDigits, toDigits_eq_reprDigits] at h2
  exact congrArg String.data h2

/-! Claim theorems. -/

/-- Claim C1 (evaluation at the failing schedule): with a starting balance
of exactly 1, both concurrent analyze requests pass the credit gate before
either debits, so both reach the remote call and both finish with the
success response — the check-and-decrement is not serialized per account,
and the final balance is minus one. -/
theorem analyze_concurrent_debits_both_succeed :
    raceA1.2 = Sum.inr "u" ∧ raceA2.2 = Sum.inr "u" ∧
    raceB1.2 = AnalyzeResult.ok 0 ∧ raceB2.2 = AnalyzeResult.ok (-1) ∧
    getBalance raceB2.1 "u" = -1 := by
  decide

/-- Claim C2 (evaluation at the failing schedule): after the interleaved
double debit against a balance of 1, the negative balance is observable
to callers: the second analyze response carries remainingCredits minus
one, and the balance query reports minus one for the account. -/
theorem analyze_race_negative_balance_observable :
    raceB2.2 = AnalyzeResult.ok (-1) ∧
    (userCreditsRoute raceB2.1 (some "u")).2 = -1 ∧
    getBalance raceB2.1 "u" < 0 := by
  decide

/-- Counterexample to claim C3 as stated: a funded account reaches the
remote call (phaseA hands back the resolved account for the remote
segment), yet at that moment the balance is still the undecremented 1,
not the original minus one. -/
theorem remote_call_balance_undebited_cex :
    (phaseA c3St (some "d") (some "u")).2 = Sum.inr "u" ∧
    getBalance (phaseA c3St (some "d") (some "u")).1 "u" = 1 ∧
    ¬ (getBalance (phaseA c3St (some "d") (some "u")).1 "u" = getBalance c3St "u" - 1) := by
  decide

/-- Claim C3 amended: whenever an analyze call reaches the remote
collaborator, the state at the moment the remote request is issued still
holds every pre-call balance unchanged (only a positive-balance check has
happened, no debit), and the one-credit decrement is applied by the
post-remote segment, which lowers the effective account by exactly one. -/
theorem debit_happens_after_remote_call (st : St) (docId userId : Option String)
    (st1 : St) (uid : String) (h : phaseA st docId userId = (st1, Sum.inr uid)) :
    (∀ a, getBalance st1 a = getBalance st a) ∧
    (phaseB st1 uid).2 = AnalyzeResult.ok (getBalance st uid - 1) ∧
    getBalance (phaseB st1 uid).1 uid = getBalance st uid - 1 := by
  have h1 : ∀ a, getBalance st1 a = getBalance st a := by
    intro a
    have h2 := getBalance_phaseA st docId userId a
    rw [h] at h2
    exact h2
  refine ⟨h1, ?_, ?_⟩
  · simp [phaseB, h1]
  · rw [getBalance_phaseB_self, h1]

/-- Witness for the amended C3 at a concrete funded account. -/
theorem debit_happens_after_remote_call_witness :
    (phaseB c3St "u").2 = AnalyzeResult.ok (getBalance c3St "u" - 1) ∧
    getBalance (phaseB c3St "u").1 "u" = getBalance c3St "u" - 1 :=
  ⟨(debit_happens_after_remote_call c3St (some "d") (some "u") c3St "u" (by decide)).2.1,
   (debit_happens_after_remote_call c3St (some "d") (some "u") c3St "u" (by decide)).2.2⟩

/-- Counterexample to claim C4 as stated: on a funded account and a
whitespace-only document the route does answer the distinct
no-extractable-text error, but the balance afterwards is still 1 — it was
not decremented, because the text check runs before the decrement. -/
theorem empty_text_balance_not_decremented_cex :
    (analyze c4St (some "e") (some "u") (some "raw")).1 = AnalyzeResult.noExtractableText ∧
    getBalance (analyze c4St (some "e") (some "u") (some "raw")).2.1 "u" = 1 ∧
    ¬ (getBalance (analyze c4St (some "e") (some "u") (some "raw")).2.1 "u"
        = getBalance c4St "u" - 1) := by
  decide

/-- Claim C4 amended: a document whose extracted text is empty or
whitespace-only on a positively funded account fails with the
no-extractable-text error, which is distinct from insufficient credits,
and the account balance is unchanged on this failure path (the
extractability check runs before the decrement, so no credit is charged
for an unusable document). -/
theorem analyze_empty_text_distinct_error_no_charge (st : St) (d : String)
    (userId remote : Option String) (doc : Doc)
    (hne : d ≠ "") (hd : alFind st.docs d = some doc)
    (hb : 0 < getBalance st (effectiveUid doc userId))
    (ht : jsTrim doc.text = "") :
    (analyze st (some d) userId remote).1 = AnalyzeResult.noExtractableText ∧
    AnalyzeResult.noExtractableText ≠ AnalyzeResult.insufficientCredits ∧
    (∀ a, getBalance (analyze st (some d) userId remote).2.1 a = getBalance st a) := by
  have hA := phaseA_noText st d userId doc hne hd hb ht
  refine ⟨by simp [analyze, hA], by decide, ?_⟩
  intro a
  simp [analyze, hA, getBalance_ensureUser]

/-- Witness for the amended C4 at a concrete whitespace-only document. -/
theorem analyze_empty_text_distinct_error_no_charge_witness :
    (analyze c4St (some "e") (some "u") (some "raw")).1 = AnalyzeResult.noExtractableText ∧
    getBalance (analyze c4St (some "e") (some "u") (some "raw")).2.1 "u" = getBalance c4St "u" :=
  ⟨(analyze_empty_text_distinct_error_no_charge c4St "e" (some "u") (some "raw") ⟨"   ", "u"⟩
      (by decide) (by decide) (by decide) (by decide)).1,
   (analyze_empty_text_distinct_error_no_charge c4St "e" (some "u") (some "raw") ⟨"   ", "u"⟩
      (by decide) (by decide) (by decide) (by decide)).2.2 "u"⟩

/-- Claim C5 (evaluation at the failing input): capturing the same
15.00-dollar order reference twice for account u grants 50 credits both
times — the second application adds another 50 and the balance reaches
100, because the route keeps no record of already-captured orders. -/
theorem double_capture_double_credit :
    getBalance captureOnce.1 "u" = 50 ∧
    getBalance captureTwice.1 "u" = 100 ∧
    captureTwice.2 = 50 := by
  have h1 : captureOnce = (⟨[], [("u", 50)]⟩, 50) := by
    simp only [captureOnce, capture_u_1500]; decide
  have h2 : captureTwice = (⟨[], [("u", 100)]⟩, 50) := by
    simp only [captureTwice, h1, capture_u_1500]; decide
  rw [h1, h2]; decide

/-- Claim C6: the credit grant of the capture route equals the spec
formula round of (amountPaid / 15.00) * 50 with fallback 50 when the
result is 0, NaN or otherwise falsy, for every amount string; and on the
concrete amounts, 15.00 yields 50, 30.00 yields 100, 0.00 yields the
fallback 50, and an unparseable amount yields the fallback 50. -/
theorem credit_grant_formula_correct :
    (∀ s : String, computeCredits s = specCreditGrant (jsParseFloat s)) ∧
    computeCredits "15.00" = 50 ∧ computeCredits "30.00" = 100 ∧
    computeCredits "0.00" = 50 ∧ computeCredits "unparseable" = 50 := by
  refine ⟨fun s => rfl, computeCredits_fifteen, ?_, ?_, ?_⟩
  · have h : parseDecimal "30.00" = some (false, 30, 0, 2) := by decide
    simp only [computeCredits, jsParseFloat, h]
    norm_num [round_eq]
  · have h : parseDecimal "0.00" = some (false, 0, 0, 2) := by decide
    simp only [computeCredits, jsParseFloat, h]
    norm_num [round_eq]
  · have h : parseDecimal "unparseable" = none := by decide
    simp only [computeCredits, jsParseFloat, h]

/-- Claim C7: the debit gate of the analyze route never succeeds when the
effective account holds less than the one-credit fee.  Whenever the
document resolves and the effective account balance is below 1, the route
answers with the 402 insufficient-credits response, every balance is left
unchanged, and the debit is never silently clamped: the outcome is the
explicit error, not a success. -/
theorem tryDebit_insufficient_never_clamped (st : St) (d : String)
    (userId remote : Option String) (doc : Doc)
    (hne : d ≠ "") (hd : alFind st.docs d = some doc)
    (hb : getBalance st (effectiveUid doc userId) < 1) :
    (analyze st (some d) userId remote).1 = AnalyzeResult.insufficientCredits ∧
    (∀ r : Int, (analyze st (some d) userId remote).1 ≠ AnalyzeResult.ok r) ∧
    (∀ a, getBalance (analyze st (some d) userId remote).2.1 a = getBalance st a) := by
  have hb0 : getBalance st (effectiveUid doc userId) ≤ 0 := by omega
  have hA := phaseA_insufficient st d userId doc hne hd hb0
  refine ⟨by simp [analyze, hA], ?_, ?_⟩
  · intro r
    simp [analyze, hA]
  · intro a
    simp [analyze, hA, getBalance_ensureUser]

/-- Witness for C7 at a concrete zero-balance account. -/
theorem tryDebit_insufficient_never_clamped_witness :
    (analyze wSt7 (some "d") (some "u") (some "raw")).1 = AnalyzeResult.insufficientCredits ∧
    getBalance (analyze wSt7 (some "d") (some "u") (some "raw")).2.1 "u" = getBalance wSt7 "u" :=
  ⟨(tryDebit_insufficient_never_clamped wSt7 "d" (some "u") (some "raw") ⟨"a brief", "u"⟩
      (by decide) (by decide) (by decide)).1,
   (tryDebit_insufficient_never_clamped wSt7 "d" (some "u") (some "raw") ⟨"a brief", "u"⟩
      (by decide) (by decide) (by decide)).2.2 "u"⟩

/-- Claim C8: an analyze call whose effective account has a zero-or-below
(or absent, hence zero) balance never invokes the remote analysis
collaborator: it answers the 402 insufficient-credits response with the
remote-invoked flag still false, and no charge of any kind occurs — every
account balance is exactly what it was before the call. -/
theorem unfunded_account_no_remote_call (st : St) (d : String)
    (userId remote : Option String) (doc : Doc)
    (hne : d ≠ "") (hd : alFind st.docs d = some doc)
    (hb : getBalance st (effectiveUid doc userId) ≤ 0) :
    (analyze st (some d) userId remote).2.2 = false ∧
    (analyze st (some d) userId remote).1 = AnalyzeResult.insufficientCredits ∧
    (∀ a, getBalance (analyze st (some d) userId remote).2.1 a = getBalance st a) := by
  have hA := phaseA_insufficient st d userId doc hne hd hb
  refine ⟨by simp [analyze, hA], by simp [analyze, hA], ?_⟩
  intro a
  simp [analyze, hA, getBalance_ensureUser]

/-- Witness for C8 at a concrete absent account (the document owner). -/
theorem unfunded_account_no_remote_call_witness :
    (analyze wSt8 (some "d") none (some "raw")).2.2 = false ∧
    (analyze wSt8 (some "d") none (some "raw")).1 = AnalyzeResult.insufficientCredits ∧
    getBalance (analyze wSt8 (some "d") none (some "raw")).2.1 "v" = getBalance wSt8 "v" :=
  ⟨(unfunded_account_no_remote_call wSt8 "d" none (some "raw") ⟨"a brief", "v"⟩
      (by decide) (by decide) (by decide)).1,
   (unfunded_account_no_remote_call wSt8 "d" none (some "raw") ⟨"a brief", "v"⟩
      (by decide) (by decide) (by decide)).2.1,
   (unfunded_account_no_remote_call wSt8 "d" none (some "raw") ⟨"a brief", "v"⟩
      (by decide) (by decide) (by decide)).2.2 "v"⟩

/-- Counterexample to claim C9 as stated: two distinct ingestion events
that fall in the same millisecond (timestamp 100) receive the same
documentId, and the later ingestion overwrites the record of the earlier
one: the first record is present after the first ingestion, and after the
second the store holds a single record under that id, the second one. -/
theorem same_millisecond_docId_collision_cex :
    upload1.2 = upload2.2 ∧
    alFind upload1.1.docs upload1.2 = some ⟨"first brief", "u"⟩ ∧
    alFind upload2.1.docs upload1.2 = some ⟨"second brief", "v"⟩ ∧
    upload2.1.docs.length = 1 := by
  decide

/-- Claim C9 amended: the documentId is a function of the ingestion
millisecond timestamp alone.  Ingestions at distinct timestamps receive
distinct documentIds; two ingestions within the same millisecond receive
the same documentId, and the later one overwrites the earlier record
under that shared id. -/
theorem docId_distinct_for_distinct_timestamps (t1 t2 : Nat) (hne : t1 ≠ t2) :
    genDocId t1 ≠ genDocId t2 ∧
    (∀ (st : St) (tx1 tx2 : String) (u1 u2 : Option String),
      (uploadDoc (uploadDoc st t1 tx1 u1).1 t1 tx2 u2).2 = (uploadDoc st t1 tx1 u1).2 ∧
      alFind (uploadDoc (uploadDoc st t1 tx1 u1).1 t1 tx2 u2).1.docs (uploadDoc st t1 tx1 u1).2
        = some ⟨tx2, jsOrStr u2 "anonymous"⟩) := by
  constructor
  · intro h
    apply hne
    apply natRepr_injective
    have h2 : ("doc-" ++ Nat.repr t1).data = ("doc-" ++ Nat.repr t2).data :=
      congrArg String.data h
    simp only [String.data_append] at h2
    exact String.ext (List.append_cancel_left h2)
  · intro st tx1 tx2 u1 u2
    exact ⟨rfl, by simp [uploadDoc, alFind_alSet]⟩

/-- Witness for the amended C9 at the concrete timestamps 100 and 101 and
a concrete same-millisecond double ingestion. -/
theorem docId_distinct_for_distinct_timestamps_witness :
    genDocId 100 ≠ genDocId 101 ∧
    alFind (uploadDoc (uploadDoc ⟨[], []⟩ 100 "first brief" (some "u")).1 100
        "second brief" (some "v")).1.docs (uploadDoc ⟨[], []⟩ 100 "first brief" (some "u")).2
      = some ⟨"second brief", jsOrStr (some "v") "anonymous"⟩ :=
  ⟨(docId_distinct_for_distinct_timestamps 100 101 (by decide)).1,
   ((docId_distinct_for_distinct_timestamps 100 101 (by decide)).2
      ⟨[], []⟩ "first brief" "second brief" (some "u") (some "v")).2⟩

/-- Claim C10: when the remote analysis call fails at the transport level
(the fetch throws or its body cannot be read), the analyze route answers
the 500 response and every balance is unchanged; the one-credit deduction
happens only on the path where the remote response was received and read,
where it lowers the effective account by exactly one. -/
theorem remote_failure_no_credit_spent (st : St) (d : String) (userId : Option String)
    (doc : Doc) (hne : d ≠ "") (hd : alFind st.docs d = some doc)
    (hb : 0 < getBalance st (effectiveUid doc userId))
    (ht : jsTrim doc.text ≠ "") :
    (analyze st (some d) userId none).1 = AnalyzeResult.remoteFailure ∧
    (∀ a, getBalance (analyze st (some d) userId none).2.1 a = getBalance st a) ∧
    (∀ raw : String,
      getBalance (analyze st (some d) userId (some raw)).2.1 (effectiveUid doc userId)
        = getBalance st (effectiveUid doc userId) - 1) := by
  have hA := phaseA_toRemote st d userId doc hne hd hb ht
  refine ⟨by simp [analyze, hA], ?_, ?_⟩
  · intro a
    simp [analyze, hA, getBalance_ensureUser]
  · intro raw
    simp [analyze, hA, getBalance_phaseB_self, getBalance_ensureUser]

/-- Witness for C10 at a concrete funded account and failing remote call. -/
theorem remote_failure_no_credit_spent_witness :
    (analyze wSt10 (some "d") (some "u") none).1 = AnalyzeResult.remoteFailure ∧
    getBalance (analyze wSt10 (some "d") (some "u") none).2.1 "u" = getBalance wSt10 "u" :=
  ⟨(remote_failure_no_credit_spent wSt10 "d" (some "u") ⟨"a brief", "u"⟩
      (by decide) (by decide) (by decide) (by decide)).1,
   (remote_failure_no_credit_spent wSt10 "d" (some "u") ⟨"a brief", "u"⟩
      (by decide) (by decide) (by decide) (by decide)).2.1 "u"⟩
